import Mathlib

/-!
Shallow embedding of the core services of the cinecritique backend
(cache_manager.py, cost_tracker.py, ai_router.py, video_processor.py),
with theorems checking the natural-language specification against the code.

Python floats are modelled as rationals (ℚ); Python `int` token counts as ℤ
with non-negativity hypotheses where the spec assumes them; exceptions as
`Except` values; the external backing stores (diskcache, the ledger file,
the two inference providers, OpenCV decoding) as explicit parameters of the
embedded functions, so that every interleaving of external outcomes is a
concrete input.
-/

namespace CineCritique

/-- A Python runtime error: either a ZeroDivisionError from `/`, or a generic
`Exception` carrying its message. -/
inductive PyErr where
  | zeroDivision
  | exception (msg : String)
deriving Repr, DecidableEq

/-- Python float division `a / b`: raises ZeroDivisionError when `b = 0`. -/
def pyDiv (a b : ℚ) : Except PyErr ℚ :=
  if b = 0 then .error .zeroDivision else .ok (a / b)

/-- Round-half-to-even on ℚ (Python's `round` tie rule). -/
def roundHalfEven (q : ℚ) : ℤ :=
  let f := ⌊q⌋
  let frac := q - f
  if frac < 1/2 then f
  else if 1/2 < frac then f + 1
  else if f % 2 = 0 then f else f + 1

/-- Python `round(x, 2)` modelled on ℚ. -/
def round2 (q : ℚ) : ℚ := (roundHalfEven (q * 100) : ℚ) / 100

/-! ## CacheManager (cache_manager.py)

State: the diskcache backing store (a persistent key/value map where each
entry may carry an absolute expiry time) together with the three in-memory
counters `hits`, `misses`, `sets`.  Each operation additionally takes the
current time and a flag saying whether the backing store call succeeds or
raises (CacheIOFailure); the `try/except` blocks of the source are the
`match` on that flag. -/

/-- One stored entry of the diskcache backing store: the value and an
optional absolute expiry time (`expire=ttl` stores `now + ttl`). -/
structure StoredEntry (V : Type) where
  value : V
  expiry : Option ℚ
deriving Repr, DecidableEq

/-- The CacheManager state: backing store plus the in-memory stats dict. -/
structure CacheState (V : Type) where
  store : List (String × StoredEntry V)
  hits : ℕ
  misses : ℕ
  sets : ℕ
deriving Repr, DecidableEq

/-- A fresh CacheManager (empty store, zeroed counters). -/
def CacheState.init (V : Type) : CacheState V := ⟨[], 0, 0, 0⟩

/-- Lookup in the backing store at time `now`: an entry past its expiry is
absent (diskcache returns the default, `None`). -/
def storeGet {V : Type} (store : List (String × StoredEntry V)) (key : String)
    (now : ℚ) : Option V :=
  match store.find? (fun p => p.1 == key) with
  | none => none
  | some p => match p.2.expiry with
    | none => some p.2.value
    | some e => if now < e then some p.2.value else none

/-- Replace or append an entry in the backing store. -/
def storePut {V : Type} (store : List (String × StoredEntry V)) (key : String)
    (e : StoredEntry V) : List (String × StoredEntry V) :=
  match store with
  | [] => [(key, e)]
  | (k0, e0) :: rest =>
      if k0 = key then (k0, e) :: rest else (k0, e0) :: storePut rest key e

/-- `CacheManager.get`: on a successful backing-store read, a non-absent
value counts a hit and is returned, an absent one counts a miss; when the
backing store raises (`storeOk = false`) the exception handler returns
`None` — without touching either counter. -/
def cacheGet {V : Type} (c : CacheState V) (key : String) (now : ℚ)
    (storeOk : Bool) : CacheState V × Option V :=
  if storeOk then
    match storeGet c.store key now with
    | some v => ({ c with hits := c.hits + 1 }, some v)
    | none => ({ c with misses := c.misses + 1 }, none)
  else (c, none)

/-- `CacheManager.set`: Python tests the TTL for truthiness (`if ttl:`), so
both `None` and `0` store the entry with no expiry; the set counter is
incremented only after the store write succeeds, a raising write returns
`False` leaving everything unchanged. -/
def cacheSet {V : Type} (c : CacheState V) (key : String) (v : V)
    (ttl : Option ℤ) (now : ℚ) (storeOk : Bool) : CacheState V × Bool :=
  if storeOk then
    let entry : StoredEntry V :=
      match ttl with
      | some t => if t ≠ 0 then ⟨v, some (now + t)⟩ else ⟨v, none⟩
      | none => ⟨v, none⟩
    ({ c with store := storePut c.store key entry, sets := c.sets + 1 }, true)
  else (c, false)

/-- `CacheManager.delete`: never touches the stats counters. -/
def cacheDelete {V : Type} (c : CacheState V) (key : String)
    (storeOk : Bool) : CacheState V × Bool :=
  if storeOk then
    ({ c with store := c.store.filter (fun p => p.1 != key) },
      c.store.any (fun p => p.1 == key))
  else (c, false)

/-- `CacheManager.clear_all`: never touches the stats counters. -/
def cacheClear {V : Type} (c : CacheState V) (storeOk : Bool) :
    CacheState V × Bool :=
  if storeOk then ({ c with store := [] }, true) else (c, false)

/-! ## CostTracker (cost_tracker.py)

The in-memory ledger fields (`total_cost`, `breakdown`, `api_calls`,
`cache_hits`) are a `LedgerData`; the persisted JSON file is a second
`LedgerData` held alongside, so that `_save` is `persisted := data`.
The breakdown dict is an association list updated in place, as a Python
dict keeps insertion order. -/

/-- The ledger fields of CostTracker (and the schema of its JSON file,
minus the informational `last_updated` stamp). -/
structure LedgerData where
  total_cost : ℚ
  breakdown : List (String × ℚ)
  api_calls : ℕ
  cache_hits : ℕ
deriving Repr, DecidableEq

/-- CostTracker state: the live fields plus the durable file contents. -/
structure CostTracker where
  data : LedgerData
  persisted : LedgerData
deriving Repr, DecidableEq

/-- Python `dict.get(key, 0.0)` on the breakdown. -/
def bdGet : List (String × ℚ) → String → ℚ
  | [], _ => 0
  | (k0, v0) :: rest, k => if k0 = k then v0 else bdGet rest k

/-- Python `dict[key] = v` on the breakdown (update in place or append). -/
def bdSet : List (String × ℚ) → String → ℚ → List (String × ℚ)
  | [], k, v => [(k, v)]
  | (k0, v0) :: rest, k, v =>
      if k0 = k then (k0, v) :: rest else (k0, v0) :: bdSet rest k v

/-- `COST_PER_1K_TOKENS` price table of cost_tracker.py. -/
def COST_PER_1K_TOKENS : List (String × ℚ) :=
  [("gemini-3-pro-preview", 125/1000),
   ("gemini-1.5-flash", 1875/100000000),
   ("gemini-2.5-flash-image", 3/10000),
   ("imagen-4.0-generate-001", 4/100),
   ("imagen-3.0-generate-001", 2/100),
   ("local_llm", 0)]

/-- `dict.get(model, default)` on the price table. -/
def priceLookup : List (String × ℚ) → String → ℚ → ℚ
  | [], _, d => d
  | (k0, v0) :: rest, m, d => if k0 = m then v0 else priceLookup rest m d

/-- `CostTracker.__init__`: load the file if it exists, else zeros. -/
def CostTracker.load (file : Option LedgerData) : CostTracker :=
  match file with
  | some d => ⟨d, d⟩
  | none => ⟨⟨0, [], 0, 0⟩, ⟨0, [], 0, 0⟩⟩

/-- `CostTracker._save`: write the live fields to the file. -/
def CostTracker.save (t : CostTracker) : CostTracker := ⟨t.data, t.data⟩

/-- `CostTracker.record_analysis`. -/
def record_analysis (t : CostTracker) (provider model : String) (tokens : ℤ) :
    CostTracker × ℚ :=
  let cost : ℚ :=
    if provider = "local_llm" then 0
    else ((tokens : ℚ) / 1000) * priceLookup COST_PER_1K_TOKENS model (5/100)
  let key := "analysis_" ++ provider
  let d := t.data
  let d' : LedgerData :=
    { d with total_cost := d.total_cost + cost,
             api_calls := d.api_calls + 1,
             breakdown := bdSet d.breakdown key (bdGet d.breakdown key + cost) }
  (CostTracker.save ⟨d', t.persisted⟩, cost)

/-- `CostTracker.record_chat` (the chat model is fixed to gemini-1.5-flash). -/
def record_chat (t : CostTracker) (provider : String) (tokens : ℤ) :
    CostTracker × ℚ :=
  let cost : ℚ :=
    if provider = "local_llm" then 0
    else ((tokens : ℚ) / 1000) *
      priceLookup COST_PER_1K_TOKENS "gemini-1.5-flash" (1875/100000000)
  let key := "chat_" ++ provider
  let d := t.data
  let d' : LedgerData :=
    { d with total_cost := d.total_cost + cost,
             api_calls := d.api_calls + 1,
             breakdown := bdSet d.breakdown key (bdGet d.breakdown key + cost) }
  (CostTracker.save ⟨d', t.persisted⟩, cost)

/-- `CostTracker.record_image_generation`: the bucket key is the constant
`"image_generation"` — the provider argument is not part of it. -/
def record_image_generation (t : CostTracker) (provider model : String) :
    CostTracker × ℚ :=
  let cost : ℚ := priceLookup COST_PER_1K_TOKENS model (2/100)
  let key := "image_generation"
  let d := t.data
  let d' : LedgerData :=
    { d with total_cost := d.total_cost + cost,
             api_calls := d.api_calls + 1,
             breakdown := bdSet d.breakdown key (bdGet d.breakdown key + cost) }
  (CostTracker.save ⟨d', t.persisted⟩, cost)

/-- `CostTracker.record_cache_hit`. -/
def record_cache_hit (t : CostTracker) : CostTracker :=
  CostTracker.save ⟨{ t.data with cache_hits := t.data.cache_hits + 1 }, t.persisted⟩

/-- `CostTracker.reset`. -/
def CostTracker.reset (t : CostTracker) : CostTracker :=
  CostTracker.save ⟨⟨0, [], 0, 0⟩, t.persisted⟩

/-- `CostTracker.get_budget_status` report shape. -/
structure BudgetStatus where
  budget : ℚ
  spent : ℚ
  remaining : ℚ
  percent_used : ℚ
  exceeded : Bool
deriving Repr, DecidableEq

/-- `CostTracker.get_budget_status`: purely informational — it reads the
tracker and builds a report, mutating nothing (in the source no field is
assigned and nothing is persisted). `exceeded` compares the unrounded
remainder. -/
def get_budget_status (t : CostTracker) (monthly_budget : ℚ) : BudgetStatus :=
  let remaining := monthly_budget - t.data.total_cost
  let percent_used : ℚ :=
    if 0 < monthly_budget then t.data.total_cost / monthly_budget * 100 else 0
  { budget := monthly_budget,
    spent := round2 t.data.total_cost,
    remaining := round2 remaining,
    percent_used := round2 percent_used,
    exceeded := decide (remaining < 0) }

/-- The operations of CostTracker that mutate the ledger. -/
inductive TrackerOp where
  | analysis (provider model : String) (tokens : ℤ)
  | chat (provider : String) (tokens : ℤ)
  | imageGen (provider model : String)
  | cacheHit
  | reset
deriving Repr, DecidableEq

/-- Apply one tracker operation (dropping the returned cost). -/
def applyOp (t : CostTracker) : TrackerOp → CostTracker
  | .analysis p m tok => (record_analysis t p m tok).1
  | .chat p tok => (record_chat t p tok).1
  | .imageGen p m => (record_image_generation t p m).1
  | .cacheHit => record_cache_hit t
  | .reset => CostTracker.reset t

/-- Apply a sequence of tracker operations left to right. -/
def applyOps (t : CostTracker) (ops : List TrackerOp) : CostTracker :=
  ops.foldl applyOp t

/-- The token count an operation carries (0 when it has none). -/
def opTokens : TrackerOp → ℤ
  | .analysis _ _ tok => tok
  | .chat _ tok => tok
  | _ => 0

/-! ## AIRouter (ai_router.py)

The two providers, the network and `json.loads` are external: a `RouterEnv`
carries the availability flags resolved at startup, the outcome of the
cloud upload/poll/generate protocol, the outcome of the local chat
completion, and the `loads` function applied to an extracted JSON span.
Python's `re.search(..., re.DOTALL)` over the pattern consisting of an
opening brace, a greedy any-run and a closing brace matches exactly when an
opening brace is followed somewhere later by a closing brace, and the match
runs from the first such opening brace to the last closing brace. -/

/-- The `summary` object of an AnalysisResult. -/
structure AnalysisSummary where
  storytelling : String
  editing : String
  cinematography : String
  musicIntegration : String
  verdict : String
deriving Repr, DecidableEq

/-- One flagged moment of the analysis timeline. -/
structure TimelineEntry where
  timestamp : String
  seconds : ℚ
  title : String
  issue : String
  reason : String
  fix : String
  severity : ℕ
deriving Repr, DecidableEq

/-- The final critique payload. -/
structure AnalysisResult where
  summary : AnalysisSummary
  timeline : List TimelineEntry
deriving Repr, DecidableEq

/-- Index of the last closing brace of a character list, if any. -/
def lastCloseIdx (cs : List Char) : Option ℕ :=
  match cs with
  | [] => none
  | c :: rest =>
      match lastCloseIdx rest with
      | some j => some (j + 1)
      | none => if c = '\x7d' then some 0 else none

/-- The regex scan of the two parsers: the span from the first opening
brace that has a later closing brace, up to the last closing brace. -/
def jsonSearch (cs : List Char) : Option (List Char) :=
  match cs with
  | [] => none
  | c :: rest =>
      if c = '\x7b' then
        match lastCloseIdx rest with
        | some j => some (c :: rest.take (j + 1))
        | none => none
      else jsonSearch rest

/-- `AIRouter._parse_gemini_response`: `loads` is `json.loads` on the
extracted span (returning `.error` when it raises, which the handler
re-raises); with no JSON found the fallback structure carries the first
200 characters of raw text in `storytelling`. -/
def parse_gemini_response (loads : String → Except String AnalysisResult)
    (text : String) : Except String AnalysisResult :=
  match jsonSearch text.data with
  | some span => loads (String.mk span)
  | none => .ok
      { summary :=
          { storytelling := text.take 200,
            editing := "See full analysis",
            cinematography := "See full analysis",
            musicIntegration := "See full analysis",
            verdict := "Analysis completed" },
        timeline := [] }

/-- `AIRouter._parse_local_response`: same scan; with no JSON found the
fallback carries the first 200 characters of raw text in `verdict`
(or a fixed message when the text is empty). -/
def parse_local_response (loads : String → Except String AnalysisResult)
    (text : String) : Except String AnalysisResult :=
  match jsonSearch text.data with
  | some span => loads (String.mk span)
  | none => .ok
      { summary :=
          { storytelling := "Local analysis based on features",
            editing := "Tempo-based rhythm assessment",
            cinematography := "Technical quality assessment",
            musicIntegration := "Beat synchronization analysis",
            verdict := if text ≠ "" then text.take 200 else "Analysis completed" },
        timeline := [] }

/-- The dict returned by the analysis paths of AIRouter. -/
structure AnalysisOutput where
  analysis : AnalysisResult
  provider : String
  model : String
  tokens : ℕ
deriving Repr, DecidableEq

/-- The external world of one `analyze_video` call: startup availability
flags, the cloud protocol's outcome (terminal file state after polling,
then the generated text or a raised exception, and the usage count), the
local completion's outcome, and `json.loads`. -/
structure RouterEnv where
  gemini_available : Bool
  local_llm_available : Bool
  gemini_file_state : String
  gemini_text : Except String String
  gemini_tokens : ℕ
  local_text : Except String String
  local_tokens : ℕ
  loads : String → Except String AnalysisResult

/-- `AIRouter._analyze_with_local_llm`: run the local completion, parse its
text, tag the result with provider `"local_llm"`; any exception propagates. -/
def analyze_with_local_llm (r : RouterEnv) : Except String AnalysisOutput :=
  match r.local_text with
  | .error e => .error e
  | .ok text =>
      match parse_local_response r.loads text with
      | .error e => .error e
      | .ok analysis =>
          .ok ⟨analysis, "local_llm", "llama-2-7b", r.local_tokens⟩

/-- The body of the `try` block of `AIRouter._analyze_with_gemini`: a
terminal FAILED state is a hard failure of the cloud call; otherwise
generate, parse, and tag with provider `"gemini"`. -/
def gemini_attempt (r : RouterEnv) : Except String AnalysisOutput :=
  if r.gemini_file_state = "FAILED" then
    .error "Gemini video processing failed"
  else
    match r.gemini_text with
    | .error e => .error e
    | .ok text =>
        match parse_gemini_response r.loads text with
        | .error e => .error e
        | .ok analysis =>
            .ok ⟨analysis, "gemini", "gemini-1.5-flash", r.gemini_tokens⟩

/-- `AIRouter._analyze_with_gemini`: on any exception in the cloud call,
fall back to the local path when it is available, else re-raise. -/
def analyze_with_gemini (r : RouterEnv) : Except String AnalysisOutput :=
  match gemini_attempt r with
  | .ok out => .ok out
  | .error e =>
      if r.local_llm_available then analyze_with_local_llm r else .error e

/-- `AIRouter.analyze_video`: forced-local or cloud-unavailable requests go
to the local path when it is available and fail otherwise; everything else
goes to the cloud path. -/
def analyze_video (r : RouterEnv) (force_local : Bool) :
    Except String AnalysisOutput :=
  if force_local || !r.gemini_available then
    if r.local_llm_available then analyze_with_local_llm r
    else .error "No AI provider available"
  else analyze_with_gemini r

/-! ## VideoProcessor (video_processor.py)

A grayscale frame is its pixel values as a list of rationals (the 2-D
shape is irrelevant to the per-pixel mean computations the claims touch).
OpenCV decoding is external: a `VideoEnv` carries what `cv2.VideoCapture`
reports (opened flag, fps, frame count, dimensions), the frame returned by
a positioned read at each index, the frame stream seen by the sequential
scene-detection pass, and the Laplacian-variance metric as an opaque
numeric function (no claim touches its value). -/

/-- `np.mean` of a pixel list (0 on an empty list, as a degenerate case
that no decoded frame produces). -/
def meanList (xs : List ℚ) : ℚ := xs.sum / xs.length

/-- `np.mean(cv2.absdiff(a, b))`: mean absolute pixel difference of two
equally shaped grayscale frames. -/
def meanAbsDiff (a b : List ℚ) : ℚ :=
  (((a.zip b).map fun p => |p.1 - p.2|).sum) / a.length

/-- One emitted scene cut. -/
structure SceneCut where
  frame_index : ℕ
  timestamp : ℚ
  intensity : ℚ
deriving Repr, DecidableEq

/-- The scene-detection threshold of `_detect_scenes`. -/
def scene_threshold : ℚ := 30

/-- The loop of `_detect_scenes` from the second frame on: `prev` is the
retained previous grayscale frame and `i` the current frame index; when
the mean difference strictly exceeds the threshold the timestamp
`frame_idx / fps` is computed (a ZeroDivisionError aborts the scan). -/
def detectFrom (fps : ℚ) (prev : List ℚ) (rest : List (List ℚ)) (i : ℕ) :
    Except PyErr (List SceneCut) :=
  match rest with
  | [] => .ok []
  | f :: rest' =>
      if scene_threshold < meanAbsDiff prev f then
        match pyDiv (i : ℚ) fps with
        | .error e => .error e
        | .ok ts =>
            match detectFrom fps f rest' (i + 1) with
            | .error e => .error e
            | .ok cuts => .ok (⟨i, ts, meanAbsDiff prev f⟩ :: cuts)
      else detectFrom fps f rest' (i + 1)

/-- `VideoProcessor._detect_scenes` over the decoded frame stream. -/
def detect_scenes (frames : List (List ℚ)) (fps : ℚ) :
    Except PyErr (List SceneCut) :=
  match frames with
  | [] => .ok []
  | f :: rest => detectFrom fps f rest 1

/-- The error-free unfolding of the scene loop, for positive fps. -/
def detectGo (fps : ℚ) (prev : List ℚ) (rest : List (List ℚ)) (i : ℕ) :
    List SceneCut :=
  match rest with
  | [] => []
  | f :: rest' =>
      if scene_threshold < meanAbsDiff prev f then
        ⟨i, (i : ℚ) / fps, meanAbsDiff prev f⟩ :: detectGo fps f rest' (i + 1)
      else detectGo fps f rest' (i + 1)

/-- The claim-side characterisation: a cut at index `i` means `1 ≤ i`,
`i` indexes the frame stream, and the mean absolute grayscale difference
between frame `i` and frame `i - 1` strictly exceeds the threshold. -/
def isCutAt (frames : List (List ℚ)) (i : ℕ) : Prop :=
  1 ≤ i ∧ i < frames.length ∧
    scene_threshold < meanAbsDiff (frames.getD (i - 1) []) (frames.getD i [])

/-- One sampled frame's metrics. -/
structure FrameSample where
  frame_index : ℕ
  timestamp : ℚ
  brightness : ℚ
  motion_blur : ℚ
deriving Repr, DecidableEq

/-- The metadata dict of `_extract_features_sync` (the width-by-height
string field is omitted as pure formatting). -/
structure Metadata where
  fps : ℚ
  frame_count : ℕ
  width : ℕ
  height : ℕ
  duration : ℚ
deriving Repr, DecidableEq

/-- The feature dict built by `_extract_features_sync` (audio analysis is
best-effort and independent; it is outside every claim and omitted). -/
structure FeatureOut where
  metadata : Metadata
  frames : Option (List FrameSample)
  scenes : List SceneCut
deriving Repr, DecidableEq

/-- What `cv2.VideoCapture` and the decoder report for one video. -/
structure VideoEnv where
  opened : Bool
  fps : ℚ
  frame_count : ℕ
  width : ℕ
  height : ℕ
  decode : ℕ → Option (List ℚ)
  streamFrames : List (List ℚ)
  motionBlur : List ℚ → ℚ

/-- Python `range(0, stop, step)` for positive step. -/
def pyRange (stop step : ℕ) : List ℕ :=
  (List.range ((stop + step - 1) / step)).map (· * step)

/-- The duration computation of metadata extraction:
`frame_count / fps if fps > 0 else 0` — the division happens only under
the positivity guard. -/
def metadata_duration (frame_count : ℕ) (fps : ℚ) : Except PyErr ℚ :=
  if 0 < fps then pyDiv (frame_count : ℚ) fps else .ok 0

/-- The sampling loop of `_extract_features_sync`: indices failing to
decode are skipped; each decoded frame computes brightness (mean grayscale)
and the blur metric, and the sample dict's timestamp is `idx / fps` —
an unguarded division. -/
def sampleGo (env : VideoEnv) : List ℕ → Except PyErr (List FrameSample)
  | [] => .ok []
  | idx :: rest =>
      match env.decode idx with
      | none => sampleGo env rest
      | some frame =>
          match pyDiv (idx : ℚ) env.fps with
          | .error e => .error e
          | .ok ts =>
              match sampleGo env rest with
              | .error e => .error e
              | .ok samples =>
                  .ok (⟨idx, ts, meanList frame, env.motionBlur frame⟩ :: samples)

/-- `VideoProcessor._extract_features_sync`: open check, metadata with the
guarded duration, optional frame sampling over
`range(0, frame_count, frame_interval)`, then the scene-detection pass.
Any raised error propagates out of the whole extraction. -/
def extract_features_sync (env : VideoEnv) (sample_frames : Bool)
    (frame_interval : ℕ) : Except PyErr FeatureOut :=
  if !env.opened then .error (.exception "Cannot open video")
  else
    match metadata_duration env.frame_count env.fps with
    | .error e => .error e
    | .ok dur =>
        match (if sample_frames then
                 sampleGo env (pyRange env.frame_count frame_interval)
               else .ok []) with
        | .error e => .error e
        | .ok samples =>
            match detect_scenes env.streamFrames env.fps with
            | .error e => .error e
            | .ok scenes =>
                .ok ⟨⟨env.fps, env.frame_count, env.width, env.height, dur⟩,
                     if sample_frames then some samples else none, scenes⟩


/-! ## Helper lemmas -/

theorem pyDiv_pos (a b : ℚ) (h : b ≠ 0) : pyDiv a b = .ok (a / b) := by
  simp [pyDiv, h]

theorem roundHalfEven_intCast (n : ℤ) : roundHalfEven (n : ℚ) = n := by
  simp [roundHalfEven]

theorem storeGet_storePut_self {V : Type} (store : List (String × StoredEntry V))
    (key : String) (e : StoredEntry V) :
    (storePut store key e).find? (fun p => p.1 == key) = some (key, e) := by
  induction store with
  | nil => simp [storePut, List.find?]
  | cons hd tl ih =>
      obtain ⟨k0, e0⟩ := hd
      by_cases h : k0 = key
      · simp [storePut, h, List.find?]
      · simp only [storePut, if_neg h]
        rw [List.find?_cons_of_neg]
        · exact ih
        · simpa using h

theorem priceLookup_nonneg (l : List (String × ℚ)) (m : String) (d : ℚ)
    (hl : ∀ p ∈ l, 0 ≤ p.2) (hd : 0 ≤ d) : 0 ≤ priceLookup l m d := by
  induction l with
  | nil => exact hd
  | cons hd0 tl ih =>
      obtain ⟨k0, v0⟩ := hd0
      simp only [priceLookup]
      split
      · exact hl (k0, v0) (List.mem_cons_self _ _)
      · exact ih (fun p hp => hl p (List.mem_cons_of_mem _ hp))

theorem table_nonneg : ∀ p ∈ COST_PER_1K_TOKENS, 0 ≤ p.2 := by
  intro p hp
  simp only [COST_PER_1K_TOKENS, List.mem_cons, List.not_mem_nil, or_false] at hp
  rcases hp with h | h | h | h | h | h <;> subst h <;> norm_num

theorem bdGet_bdSet_self (bd : List (String × ℚ)) (k : String) (v : ℚ) :
    bdGet (bdSet bd k v) k = v := by
  induction bd with
  | nil => simp [bdSet, bdGet]
  | cons hd tl ih =>
      obtain ⟨k0, v0⟩ := hd
      by_cases h : k0 = k
      · simp [bdSet, bdGet, h]
      · simp [bdSet, bdGet, h, ih]

theorem analyze_with_local_llm_provider (r : RouterEnv)
    (out : AnalysisOutput) (h : analyze_with_local_llm r = .ok out) :
    out.provider = "local_llm" := by
  unfold analyze_with_local_llm at h
  split at h
  · exact absurd h (by simp)
  · split at h
    · exact absurd h (by simp)
    · cases h
      rfl

theorem gemini_attempt_provider (r : RouterEnv)
    (out : AnalysisOutput) (h : gemini_attempt r = .ok out) :
    out.provider = "gemini" := by
  unfold gemini_attempt at h
  split at h
  · exact absurd h (by simp)
  · split at h
    · exact absurd h (by simp)
    · split at h
      · exact absurd h (by simp)
      · cases h
        rfl

theorem detectFrom_eq_go (fps : ℚ) (hf : fps ≠ 0) (prev : List ℚ)
    (rest : List (List ℚ)) (i : ℕ) :
    detectFrom fps prev rest i = .ok (detectGo fps prev rest i) := by
  induction rest generalizing prev i with
  | nil => rfl
  | cons f rest' ih =>
      unfold detectFrom detectGo
      by_cases hd : scene_threshold < meanAbsDiff prev f
      · simp only [if_pos hd, pyDiv_pos _ _ hf, ih]
      · simp only [if_neg hd]
        exact ih f (i + 1)

theorem detectGo_mem_iff (fps : ℚ) (rest : List (List ℚ)) :
    ∀ (prev : List ℚ) (i j : ℕ),
      (∃ c ∈ detectGo fps prev rest i, c.frame_index = j) ↔
        ∃ k, k < rest.length ∧ j = i + k ∧
          scene_threshold < meanAbsDiff ((prev :: rest).getD k []) (rest.getD k []) := by
  induction rest with
  | nil => simp [detectGo]
  | cons f rest' ih =>
      intro prev i j
      unfold detectGo
      by_cases hd0 : scene_threshold < meanAbsDiff prev f
      · rw [if_pos hd0]
        constructor
        · rintro ⟨c, hc, hj⟩
          rcases List.mem_cons.mp hc with h | h
          · subst h
            exact ⟨0, by simp, by simpa using hj.symm, by simpa using hd0⟩
          · rcases (ih f (i + 1) j).mp ⟨c, h, hj⟩ with ⟨k, hk, hjk, hdk⟩
            exact ⟨k + 1, by simpa using hk, by omega, by simpa using hdk⟩
        · rintro ⟨k, hk, hjk, hdk⟩
          cases k with
          | zero =>
              exact ⟨_, List.mem_cons_self _ _, by simpa using hjk.symm⟩
          | succ k' =>
              rcases (ih f (i + 1) j).mpr
                ⟨k', by simpa using hk, by omega, by simpa using hdk⟩ with ⟨c, hc, hj⟩
              exact ⟨c, List.mem_cons_of_mem _ hc, hj⟩
      · rw [if_neg hd0]
        constructor
        · intro hmem
          rcases (ih f (i + 1) j).mp hmem with ⟨k, hk, hjk, hdk⟩
          exact ⟨k + 1, by simpa using hk, by omega, by simpa using hdk⟩
        · rintro ⟨k, hk, hjk, hdk⟩
          cases k with
          | zero =>
              exact absurd (by simpa using hdk) hd0
          | succ k' =>
              exact (ih f (i + 1) j).mpr
                ⟨k', by simpa using hk, by omega, by simpa using hdk⟩

theorem sampleGo_zero_fps_error (env : VideoEnv) (hf : env.fps = 0)
    (idxs : List ℕ) (hdec : ∃ idx ∈ idxs, env.decode idx ≠ none) :
    sampleGo env idxs = .error .zeroDivision := by
  induction idxs with
  | nil => simp at hdec
  | cons idx rest ih =>
      unfold sampleGo
      rcases hd : env.decode idx with _ | frame
      · rcases hdec with ⟨i, hi, hne⟩
        rcases List.mem_cons.mp hi with h | h
        · subst h
          exact absurd hd hne
        · exact ih ⟨i, h, hne⟩
      · simp [pyDiv, hf]

/-! ## Claim theorems -/

/-- Claim C7: metadata extraction sets duration = frame_count / fps when
fps is positive and duration = 0 when fps is 0, without raising — the
division sits under the positivity guard, so the fps = 0 edge case is not
a failure for the duration field. -/
theorem C7_duration_guard (frame_count : ℕ) (fps : ℚ) :
    (0 < fps →
      metadata_duration frame_count fps = .ok ((frame_count : ℚ) / fps)) ∧
    (fps = 0 → metadata_duration frame_count fps = .ok 0) := by
  constructor
  · intro h
    unfold metadata_duration
    rw [if_pos h, pyDiv_pos _ _ (ne_of_gt h)]
  · intro h
    unfold metadata_duration
    rw [h, if_neg (lt_irrefl (0 : ℚ))]

/-- Witness for C7 at frame_count = 30 with fps = 2 and fps = 0. -/
theorem C7_duration_guard_witness :
    metadata_duration 30 2 = .ok ((30 : ℚ) / 2) ∧
    metadata_duration 30 0 = .ok 0 :=
  ⟨(C7_duration_guard 30 2).1 (by norm_num), (C7_duration_guard 30 0).2 rfl⟩

/-- Claim C8: with total_cost = 6.0 and limit 5.0, `get_budget_status`
reports exceeded = true and remaining = -1.0; in general it reports the
rounded spent total, remaining = limit - spent and percent_used, with
`exceeded` comparing the unrounded remainder — a pure report built from
the tracker, which it does not mutate. -/
theorem C8_budget_status (t : CostTracker) (limit : ℚ) :
    (get_budget_status t limit).spent = round2 t.data.total_cost ∧
    (get_budget_status t limit).remaining = round2 (limit - t.data.total_cost) ∧
    (get_budget_status t limit).exceeded = decide (limit - t.data.total_cost < 0) ∧
    (0 < limit →
      (get_budget_status t limit).percent_used =
        round2 (t.data.total_cost / limit * 100)) ∧
    get_budget_status ⟨⟨6, [], 0, 0⟩, ⟨6, [], 0, 0⟩⟩ 5 =
      ⟨5, 6, -1, 120, true⟩ := by
  refine ⟨rfl, rfl, rfl, fun h => ?_, ?_⟩
  · simp [get_budget_status, if_pos h]
  · norm_num [get_budget_status, round2, roundHalfEven]

/-- Witness for C8 at a ledger holding 6.0 against the default 5.0 limit. -/
theorem C8_budget_status_witness :
    (get_budget_status ⟨⟨6, [], 0, 0⟩, ⟨6, [], 0, 0⟩⟩ 5).percent_used =
      round2 ((6 : ℚ) / 5 * 100) :=
  (C8_budget_status ⟨⟨6, [], 0, 0⟩, ⟨6, [], 0, 0⟩⟩ 5).2.2.2.1 (by norm_num)

/-- Claim C10: `set` with ttl = 0 stores the entry with no expiry at all,
identically to passing no TTL (the TTL is tested for truthiness), so a
later `get` at any time returns the stored value instead of treating the
entry as expired. -/
theorem C10_ttl_zero_never_expires (V : Type) (c : CacheState V)
    (key : String) (v : V) (now later : ℚ) :
    cacheSet c key v (some 0) now true = cacheSet c key v none now true ∧
    (cacheGet (cacheSet c key v (some 0) now true).1 key later true).2 = some v := by
  constructor
  · rfl
  · simp [cacheSet, cacheGet, storeGet, storeGet_storePut_self]

/-- Claim C3, counterexample: a `get` whose backing-store read raises
(`storeOk = false`) is answered with `None` but increments neither the
hit nor the miss counter, contradicting "exactly one of the in-memory
hit/miss counters is incremented … including when the backing store
fails". -/
theorem C3_store_failure_counterexample :
    (cacheGet (CacheState.init ℚ) "analysis:abc" 0 false).1 = CacheState.init ℚ ∧
    (cacheGet (CacheState.init ℚ) "analysis:abc" 0 false).2 = none :=
  ⟨rfl, rfl⟩

/-- Claim C3 (amended): when the backing store responds, every `get`
increments exactly one of hit/miss — the hit counter exactly when a value
is returned — and leaves the set counter alone, and every `set` increments
only the set counter; when the backing store raises, the failed `get`
returns `None` and the failed `set` returns `False` with all counters
untouched; `delete` and `clear_all` never change the counters. -/
theorem C3_stats_counters (V : Type) (c : CacheState V) (key : String)
    (v : V) (ttl : Option ℤ) (now : ℚ) (ok : Bool) :
    ((cacheGet c key now true).2.isSome →
      (cacheGet c key now true).1.hits = c.hits + 1 ∧
      (cacheGet c key now true).1.misses = c.misses) ∧
    ((cacheGet c key now true).2 = none →
      (cacheGet c key now true).1.misses = c.misses + 1 ∧
      (cacheGet c key now true).1.hits = c.hits) ∧
    (cacheGet c key now true).1.sets = c.sets ∧
    (cacheGet c key now false).1 = c ∧
    ((cacheSet c key v ttl now true).1.sets = c.sets + 1 ∧
      (cacheSet c key v ttl now true).1.hits = c.hits ∧
      (cacheSet c key v ttl now true).1.misses = c.misses) ∧
    (cacheSet c key v ttl now false).1 = c ∧
    ((cacheDelete c key ok).1.hits = c.hits ∧
      (cacheDelete c key ok).1.misses = c.misses ∧
      (cacheDelete c key ok).1.sets = c.sets) ∧
    ((cacheClear c ok).1.hits = c.hits ∧
      (cacheClear c ok).1.misses = c.misses ∧
      (cacheClear c ok).1.sets = c.sets) := by
  refine ⟨?_, ?_, ?_, rfl, ⟨rfl, rfl, rfl⟩, rfl, ?_, ?_⟩
  · intro h
    rcases hs : storeGet c.store key now with _ | v0
    · simp [cacheGet, hs] at h
    · simp [cacheGet, hs]
  · intro h
    rcases hs : storeGet c.store key now with _ | v0
    · simp [cacheGet, hs]
    · simp [cacheGet, hs] at h
  · rcases hs : storeGet c.store key now with _ | v0 <;> simp [cacheGet, hs]
  · cases ok <;> simp [cacheDelete]
  · cases ok <;> simp [cacheClear]

/-- Witness for C3 (amended): a hit after a set, and a miss on an empty
store, at concrete inputs. -/
theorem C3_stats_counters_witness :
    (cacheGet (cacheSet (CacheState.init ℕ) "k" 7 none 0 true).1 "k" 1 true).1.hits =
      (cacheSet (CacheState.init ℕ) "k" 7 none 0 true).1.hits + 1 ∧
    (cacheGet (CacheState.init ℕ) "k" 1 true).1.misses =
      (CacheState.init ℕ).misses + 1 :=
  ⟨((C3_stats_counters ℕ (cacheSet (CacheState.init ℕ) "k" 7 none 0 true).1
      "k" 7 none 1 true).1 rfl).1,
   ((C3_stats_counters ℕ (CacheState.init ℕ) "k" 7 none 1 true).2.1 rfl).1⟩

/-- Claim C4, counterexample: recording an image generation under provider
"gemini_imagen" adds its nonzero cost (0.02) to the fixed bucket
"image_generation", while the bucket the claim names,
"image_generation_gemini_imagen", stays at 0 — image generation does not
use a "<operation>_<provider>" bucket. -/
theorem C4_image_bucket_counterexample :
    (record_image_generation (CostTracker.load none) "gemini_imagen"
        "imagen-3.0-generate-001").2 = 1/50 ∧
    bdGet (record_image_generation (CostTracker.load none) "gemini_imagen"
        "imagen-3.0-generate-001").1.data.breakdown
      "image_generation_gemini_imagen" = 0 ∧
    bdGet (record_image_generation (CostTracker.load none) "gemini_imagen"
        "imagen-3.0-generate-001").1.data.breakdown "image_generation" = 1/50 ∧
    (1 : ℚ)/50 ≠ 0 := by
  refine ⟨?_, ?_, ?_, by norm_num⟩ <;>
    · norm_num [record_image_generation, CostTracker.load, CostTracker.save,
        priceLookup, COST_PER_1K_TOKENS, bdGet, bdSet]
      simp

/-- Claim C4 (amended): every completed record operation adds its cost to
the running total and to a breakdown bucket — "<operation>_<provider>" for
analysis and chat, but the fixed name "image_generation" (no provider
suffix) for image generation — and persists the full ledger state to the
durable file before returning. -/
theorem C4_record_and_persist (t : CostTracker) (provider model : String)
    (tokens : ℤ) :
    ((record_analysis t provider model tokens).1.data.total_cost =
        t.data.total_cost + (record_analysis t provider model tokens).2 ∧
      bdGet (record_analysis t provider model tokens).1.data.breakdown
          ("analysis_" ++ provider) =
        bdGet t.data.breakdown ("analysis_" ++ provider) +
          (record_analysis t provider model tokens).2 ∧
      (record_analysis t provider model tokens).1.persisted =
        (record_analysis t provider model tokens).1.data) ∧
    ((record_chat t provider tokens).1.data.total_cost =
        t.data.total_cost + (record_chat t provider tokens).2 ∧
      bdGet (record_chat t provider tokens).1.data.breakdown
          ("chat_" ++ provider) =
        bdGet t.data.breakdown ("chat_" ++ provider) +
          (record_chat t provider tokens).2 ∧
      (record_chat t provider tokens).1.persisted =
        (record_chat t provider tokens).1.data) ∧
    ((record_image_generation t provider model).1.data.total_cost =
        t.data.total_cost + (record_image_generation t provider model).2 ∧
      bdGet (record_image_generation t provider model).1.data.breakdown
          "image_generation" =
        bdGet t.data.breakdown "image_generation" +
          (record_image_generation t provider model).2 ∧
      (record_image_generation t provider model).1.persisted =
        (record_image_generation t provider model).1.data) := by
  refine ⟨⟨rfl, ?_, rfl⟩, ⟨rfl, ?_, rfl⟩, ⟨rfl, ?_, rfl⟩⟩ <;>
    simp [record_analysis, record_chat, record_image_generation,
      CostTracker.save, bdGet_bdSet_self]

/-- One record step never decreases the running total when its token count
is non-negative. -/
theorem applyOp_total_mono (t : CostTracker) (op : TrackerOp)
    (hop : op ≠ .reset) (htok : 0 ≤ opTokens op) :
    t.data.total_cost ≤ (applyOp t op).data.total_cost := by
  cases op with
  | analysis p m tok =>
      have hc : (0 : ℚ) ≤ (if p = "local_llm" then 0
          else ((tok : ℚ) / 1000) * priceLookup COST_PER_1K_TOKENS m (5/100)) := by
        split
        · exact le_rfl
        · exact mul_nonneg (div_nonneg (by exact_mod_cast htok) (by norm_num))
            (priceLookup_nonneg _ _ _ table_nonneg (by norm_num))
      have hrw : (applyOp t (TrackerOp.analysis p m tok)).data.total_cost =
          t.data.total_cost + (if p = "local_llm" then 0
            else ((tok : ℚ) / 1000) * priceLookup COST_PER_1K_TOKENS m (5/100)) := rfl
      rw [hrw]
      exact le_add_of_nonneg_right hc
  | chat p tok =>
      have hc : (0 : ℚ) ≤ (if p = "local_llm" then 0
          else ((tok : ℚ) / 1000) *
            priceLookup COST_PER_1K_TOKENS "gemini-1.5-flash" (1875/100000000)) := by
        split
        · exact le_rfl
        · exact mul_nonneg (div_nonneg (by exact_mod_cast htok) (by norm_num))
            (priceLookup_nonneg _ _ _ table_nonneg (by norm_num))
      have hrw : (applyOp t (TrackerOp.chat p tok)).data.total_cost =
          t.data.total_cost + (if p = "local_llm" then 0
            else ((tok : ℚ) / 1000) *
              priceLookup COST_PER_1K_TOKENS "gemini-1.5-flash" (1875/100000000)) := rfl
      rw [hrw]
      exact le_add_of_nonneg_right hc
  | imageGen p m =>
      have hc : (0 : ℚ) ≤ priceLookup COST_PER_1K_TOKENS m (2/100) :=
        priceLookup_nonneg _ _ _ table_nonneg (by norm_num)
      have hrw : (applyOp t (TrackerOp.imageGen p m)).data.total_cost =
          t.data.total_cost + priceLookup COST_PER_1K_TOKENS m (2/100) := rfl
      rw [hrw]
      exact le_add_of_nonneg_right hc
  | cacheHit => exact le_of_eq rfl
  | reset => exact absurd rfl hop

/-- A reset-free sequence of record operations with non-negative token
counts never decreases the running total. -/
theorem applyOps_total_mono (ops : List TrackerOp) :
    ∀ t : CostTracker, (∀ op ∈ ops, op ≠ TrackerOp.reset ∧ 0 ≤ opTokens op) →
      t.data.total_cost ≤ (applyOps t ops).data.total_cost := by
  induction ops with
  | nil => exact fun t _ => le_rfl
  | cons op rest ih =>
      intro t h
      have h0 := h op (List.mem_cons_self _ _)
      exact le_trans (applyOp_total_mono t op h0.1 h0.2)
        (ih (applyOp t op) fun o ho => h o (List.mem_cons_of_mem _ ho))

/-- Claim C2: between any two points of a record-only sequence with
non-negative token counts (no intervening reset) the ledger's total_cost
never decreases; and immediately after `reset`, total_cost = 0, the
breakdown is empty, api_calls = 0 and cache_hits = 0. -/
theorem C2_total_cost_monotone (t : CostTracker) (ops : List TrackerOp)
    (h : ∀ op ∈ ops, op ≠ TrackerOp.reset ∧ 0 ≤ opTokens op) :
    t.data.total_cost ≤ (applyOps t ops).data.total_cost ∧
    ∀ u : CostTracker,
      (CostTracker.reset u).data.total_cost = 0 ∧
      (CostTracker.reset u).data.breakdown = [] ∧
      (CostTracker.reset u).data.api_calls = 0 ∧
      (CostTracker.reset u).data.cache_hits = 0 :=
  ⟨applyOps_total_mono ops t h, fun _ => ⟨rfl, rfl, rfl, rfl⟩⟩

/-- Witness for C2: a concrete analysis + cache-hit sequence on a fresh
ledger, and a reset. -/
theorem C2_total_cost_monotone_witness :
    (CostTracker.load none).data.total_cost ≤
      (applyOps (CostTracker.load none)
        [TrackerOp.analysis "gemini" "gemini-1.5-flash" 1000,
         TrackerOp.cacheHit]).data.total_cost ∧
    (CostTracker.reset (CostTracker.load none)).data.total_cost = 0 :=
  ⟨(C2_total_cost_monotone (CostTracker.load none)
      [TrackerOp.analysis "gemini" "gemini-1.5-flash" 1000,
       TrackerOp.cacheHit] (by decide)).1,
   ((C2_total_cost_monotone (CostTracker.load none) [] (by simp)).2
      (CostTracker.load none)).1⟩

/-- Claim C5: a provider response without the expected embedded JSON never
makes parsing raise: whatever `json.loads` would do, both the cloud-path
and local-path parsers return a minimal AnalysisResult (empty timeline)
carrying the first 200 characters of the raw text. -/
theorem C5_parse_degrade
    (loadsG loadsL : String → Except String AnalysisResult) (text : String)
    (h : jsonSearch text.data = none) :
    (∃ res, parse_gemini_response loadsG text = .ok res ∧
      res.summary.storytelling = text.take 200 ∧ res.timeline = []) ∧
    (∃ res, parse_local_response loadsL text = .ok res ∧ res.timeline = [] ∧
      (text ≠ "" → res.summary.verdict = text.take 200)) := by
  constructor
  · have hg : parse_gemini_response loadsG text = .ok
        ⟨⟨text.take 200, "See full analysis", "See full analysis",
          "See full analysis", "Analysis completed"⟩, []⟩ := by
      unfold parse_gemini_response
      rw [h]
    exact ⟨_, hg, by simp, rfl⟩
  · have hl : parse_local_response loadsL text = .ok
        ⟨⟨"Local analysis based on features", "Tempo-based rhythm assessment",
          "Technical quality assessment", "Beat synchronization analysis",
          if text ≠ "" then text.take 200 else "Analysis completed"⟩, []⟩ := by
      unfold parse_local_response
      rw [h]
    exact ⟨_, hl, rfl, fun hne => by simp [hne]⟩

/-- Witness for C5 on a braceless response text. -/
theorem C5_parse_degrade_witness :
    (∃ res, parse_gemini_response (fun _ => Except.error "boom") "plain text" =
      .ok res) ∧
    (∃ res, parse_local_response (fun _ => Except.error "boom") "plain text" =
      .ok res ∧ res.summary.verdict = ("plain text" : String).take 200) := by
  obtain ⟨⟨r1, h1, _, _⟩, ⟨r2, h2, _, hv⟩⟩ :=
    C5_parse_degrade (fun _ => .error "boom") (fun _ => .error "boom")
      "plain text" rfl
  exact ⟨⟨r1, h1⟩, ⟨r2, h2, hv (by decide)⟩⟩

/-- Claim C6: scene-cut detection emits a SceneCut at frame index i exactly
when the mean absolute grayscale difference between frames i and i-1
strictly exceeds the fixed threshold 30.0; a two-frame sequence whose
second frame differs by mean 50 yields exactly one cut, at index 1, and a
uniform sequence yields none. -/
theorem C6_scene_cut_detection (fps : ℚ) (h : 0 < fps)
    (frames : List (List ℚ)) :
    (∃ cuts, detect_scenes frames fps = .ok cuts ∧
      ∀ i, (∃ c ∈ cuts, c.frame_index = i) ↔ isCutAt frames i) ∧
    detect_scenes [[0], [50]] 1 = .ok [⟨1, 1, 50⟩] ∧
    detect_scenes [[7], [7], [7]] 1 = .ok [] := by
  refine ⟨?_, ?_, ?_⟩
  · cases frames with
    | nil =>
        refine ⟨[], rfl, fun i => ?_⟩
        simp [isCutAt]
    | cons f rest =>
        refine ⟨detectGo fps f rest 1, detectFrom_eq_go fps (ne_of_gt h) f rest 1, ?_⟩
        intro i
        rw [detectGo_mem_iff]
        unfold isCutAt
        constructor
        · rintro ⟨k, hk, hik, hd⟩
          obtain rfl : i = k + 1 := by omega
          refine ⟨by omega, by simp; omega, ?_⟩
          simpa using hd
        · rintro ⟨h1, h2, hd⟩
          obtain ⟨i', rfl⟩ : ∃ i', i = i' + 1 := ⟨i - 1, by omega⟩
          refine ⟨i', by simp at h2; omega, by omega, ?_⟩
          simpa using hd
  · norm_num [detect_scenes, detectFrom, meanAbsDiff, scene_threshold, pyDiv]
  · norm_num [detect_scenes, detectFrom, meanAbsDiff, scene_threshold]

/-- Witness for C6: the concrete two-frame and uniform sequences at
fps = 1. -/
theorem C6_scene_cut_detection_witness :
    detect_scenes [[0], [50]] 1 = .ok [⟨1, 1, 50⟩] ∧
    detect_scenes [[7], [7], [7]] 1 = .ok [] :=
  ⟨(C6_scene_cut_detection 1 one_pos []).2.1,
   (C6_scene_cut_detection 1 one_pos []).2.2⟩

/-- Claim C9: with an opened container reporting fps = 0 and at least one
sampled frame decoding, feature extraction raises ZeroDivisionError (the
timestamp `idx / fps` in frame sampling is unguarded); the scene-scan
timestamp `frame_idx / fps` is likewise unguarded as soon as a cut fires;
only the duration field handles fps = 0, so extraction as a whole fails
rather than degrading. -/
theorem C9_fps_zero_division (env : VideoEnv) (ho : env.opened = true)
    (hf : env.fps = 0) (interval : ℕ)
    (hdec : ∃ idx ∈ pyRange env.frame_count interval, env.decode idx ≠ none) :
    extract_features_sync env true interval = .error .zeroDivision ∧
    (∀ f0 f1 rest, scene_threshold < meanAbsDiff f0 f1 →
      detect_scenes (f0 :: f1 :: rest) env.fps = .error .zeroDivision) ∧
    metadata_duration env.frame_count env.fps = .ok 0 := by
  have hmd : metadata_duration env.frame_count env.fps = .ok 0 := by
    unfold metadata_duration
    rw [hf, if_neg (lt_irrefl (0 : ℚ))]
  have hsg := sampleGo_zero_fps_error env hf _ hdec
  refine ⟨?_, ?_, hmd⟩
  · simp [extract_features_sync, ho, hmd, hsg]
  · intro f0 f1 rest hd
    show detectFrom env.fps f0 (f1 :: rest) 1 = .error .zeroDivision
    unfold detectFrom
    rw [if_pos hd, hf]
    simp [pyDiv]

/-- Witness for C9: a one-frame video reporting fps = 0 whose frame 0
decodes, and a stream whose first two frames differ by mean 40. -/
theorem C9_fps_zero_division_witness :
    extract_features_sync
      ⟨true, 0, 1, 8, 8, fun _ => some [0], [], fun _ => 0⟩ true 30 =
      .error .zeroDivision ∧
    detect_scenes [[0], [40], [0]]
      (⟨true, 0, 1, 8, 8, fun _ => some [0], [], fun _ => 0⟩ : VideoEnv).fps =
      .error .zeroDivision := by
  have h := C9_fps_zero_division
    ⟨true, 0, 1, 8, 8, fun _ => some [0], [], fun _ => 0⟩ rfl rfl 30
    ⟨0, by decide, by simp⟩
  exact ⟨h.1, h.2.1 [0] [40] [[0]]
    (by norm_num [meanAbsDiff, scene_threshold])⟩

/-- Claim C1: the routing cascade of `analyze_video`: (a) forced-local with
the local provider available routes to the local path, every successful
result of which is tagged with the local provider; (b) forced-local with
the local provider unavailable fails with the provider-unavailable error;
(c) with force_local false and the cloud provider available the request
takes the cloud path, and a successful cloud call yields that cloud-tagged
result; (d) when the cloud call fails and the local provider is available
the call falls back to the local path, so a successful local result
surfaces to the caller (no exception) tagged with the local provider. -/
theorem C1_routing_cascade (r : RouterEnv) :
    (r.local_llm_available = true →
      analyze_video r true = analyze_with_local_llm r ∧
      ∀ out, analyze_with_local_llm r = .ok out → out.provider = "local_llm") ∧
    (r.local_llm_available = false →
      analyze_video r true = .error "No AI provider available") ∧
    (r.gemini_available = true →
      analyze_video r false = analyze_with_gemini r ∧
      ∀ out, gemini_attempt r = .ok out →
        analyze_video r false = .ok out ∧ out.provider = "gemini") ∧
    (r.gemini_available = true → r.local_llm_available = true →
      ∀ e, gemini_attempt r = .error e →
        analyze_video r false = analyze_with_local_llm r ∧
        ∀ out, analyze_with_local_llm r = .ok out →
          analyze_video r false = .ok out ∧ out.provider = "local_llm") := by
  refine ⟨fun hl => ⟨?_, fun out hout => analyze_with_local_llm_provider r out hout⟩,
    fun hl => ?_, fun hg => ⟨?_, fun out hout => ⟨?_, gemini_attempt_provider r out hout⟩⟩,
    fun hg hl e he => ⟨?_, fun out hout => ⟨?_, analyze_with_local_llm_provider r out hout⟩⟩⟩
  · simp [analyze_video, hl]
  · simp [analyze_video, hl]
  · simp [analyze_video, hg]
  · simp [analyze_video, analyze_with_gemini, hg, ‹gemini_attempt r = .ok out›]
  · simp [analyze_video, analyze_with_gemini, hg, hl, ‹gemini_attempt r = .error e›]
  · simp [analyze_video, analyze_with_gemini, hg, hl,
      ‹gemini_attempt r = .error e›, ‹analyze_with_local_llm r = .ok out›]

/-- Witness for C1: four concrete environments, one per scenario. -/
theorem C1_routing_cascade_witness :
    (analyze_video ⟨false, true, "ACTIVE", .ok "t", 0, .ok "", 3,
        fun _ => .error "nope"⟩ true =
      analyze_with_local_llm ⟨false, true, "ACTIVE", .ok "t", 0, .ok "", 3,
        fun _ => .error "nope"⟩) ∧
    (analyze_video ⟨true, false, "ACTIVE", .ok "t", 0, .ok "", 3,
        fun _ => .error "nope"⟩ true =
      .error "No AI provider available") ∧
    (analyze_video ⟨true, false, "ACTIVE", .ok "\x7b\x7d", 4, .ok "", 3,
        fun _ => .ok ⟨⟨"a", "b", "c", "d", "e"⟩, []⟩⟩ false =
      .ok ⟨⟨⟨"a", "b", "c", "d", "e"⟩, []⟩, "gemini", "gemini-1.5-flash", 4⟩ ∧
      (⟨⟨⟨"a", "b", "c", "d", "e"⟩, []⟩, "gemini", "gemini-1.5-flash", 4⟩ :
        AnalysisOutput).provider = "gemini") ∧
    (analyze_video ⟨true, true, "FAILED", .ok "t", 0, .ok "", 3,
        fun _ => .error "nope"⟩ false =
      analyze_with_local_llm ⟨true, true, "FAILED", .ok "t", 0, .ok "", 3,
        fun _ => .error "nope"⟩) :=
  ⟨((C1_routing_cascade _).1 rfl).1,
   (C1_routing_cascade _).2.1 rfl,
   ((C1_routing_cascade _).2.2.1 rfl).2
     ⟨⟨⟨"a", "b", "c", "d", "e"⟩, []⟩, "gemini", "gemini-1.5-flash", 4⟩ rfl,
   ((C1_routing_cascade ⟨true, true, "FAILED", .ok "t", 0, .ok "", 3,
       fun _ => .error "nope"⟩).2.2.2 rfl rfl
     "Gemini video processing failed" rfl).1⟩

end CineCritique
